import Mathlib

/-!
Shallow embedding of the parking-dashboard core from
src/components/UaeParkingDashboard.tsx: the slot store, the WebSocket
message normalizer/dispatcher (handleWebSocketMessage), the
reconnect/backoff policy (connectWebSocket onclose handler) and the
offline drift simulator (simulateRealisticParking).

Modelling conventions:
* JavaScript numbers are Nat (timestamps, durations, close codes),
  Int (floor) and Rat (probabilities and random draws).
* A field that may be absent on a JSON object is an Option; JavaScript
  truthiness in the `x || y` idiom (undefined, 0 and "" are falsy) is
  modelled explicitly by the truthy* helpers.
* The store is a list of records in insertion order, exactly as the
  parkingSlots React state array.
-/

/-- Occupancy strings accepted on the wire and in the store:
'free' | 'available' | 'occupied'. -/
inductive SState where
  | free
  | available
  | occupied
deriving DecidableEq

/-- A record held in the parking slot store.  The TypeScript interface
declares id, state, zone, floor and lastUpdated required and duration
optional, but handleWebSocketMessage casts raw wire objects into this
type unchecked (the slots branch of initial_data stores elements
verbatim), so every field may in fact be absent at runtime. -/
structure PSlot where
  id : Option String
  state : Option SState
  lastUpdated : Option Nat
  zone : Option String
  floor : Option Int
  duration : Option Nat
deriving DecidableEq

/-- A raw wire element before normalization, with the alias field
names (slot_id, status, timestamp) that the normalizer consults. -/
structure Raw where
  id : Option String
  slot_id : Option String
  state : Option SState
  status : Option SState
  lastUpdated : Option Nat
  timestamp : Option Nat
  zone : Option String
  floor : Option Int
  duration : Option Nat
deriving DecidableEq

/-- JavaScript truthiness of an optional string: "" is falsy. -/
def truthyS (a : Option String) : Option String :=
  a.bind fun s => if s = "" then none else some s

/-- JavaScript truthiness of an optional number: 0 is falsy. -/
def truthyN (a : Option Nat) : Option Nat :=
  a.bind fun n => if n = 0 then none else some n

/-- JavaScript truthiness of an optional integer: 0 is falsy. -/
def truthyI (a : Option Int) : Option Int :=
  a.bind fun n => if n = 0 then none else some n

/-- The field-defaulting mapping used by the displays branches and the
bare-array branch of handleWebSocketMessage:
id: slot.id || slot.slot_id || 'Unknown'; state: slot.state ||
slot.status || 'free'; lastUpdated: slot.lastUpdated || slot.timestamp
|| Date.now(); zone: slot.zone || 'A'; floor: slot.floor || 1;
duration: slot.duration || 0.  A present state string is non-empty,
hence truthy. -/
def normalizeSlot (now : Nat) (r : Raw) : PSlot :=
  { id := some ((truthyS r.id <|> truthyS r.slot_id).getD "Unknown"),
    state := some ((r.state <|> r.status).getD SState.free),
    lastUpdated := some ((truthyN r.lastUpdated <|> truthyN r.timestamp).getD now),
    zone := some ((truthyS r.zone).getD "A"),
    floor := some ((truthyI r.floor).getD 1),
    duration := some ((truthyN r.duration).getD 0) }

/-- The slots branch of initial_data stores each element verbatim (the
TypeScript cast performs no defaulting); only the declared slot fields
are ever read downstream, so the alias fields are projected away. -/
def asSlot (r : Raw) : PSlot :=
  { id := r.id, state := r.state, lastUpdated := r.lastUpdated,
    zone := r.zone, floor := r.floor, duration := r.duration }

/-- A displays field is either a JSON array of records or a keyed
object mapping slot ids to record bodies. -/
inductive DispVal where
  | list (xs : List Raw)
  | keyed (entries : List (String × Raw))
deriving DecidableEq

/-- The fields of an envelope's data object that the dispatcher
inspects: an optional slots array and an optional displays value. -/
structure DataObj where
  slots : Option (List Raw)
  displays : Option DispVal
deriving DecidableEq

/-- The shape of an envelope's data: a non-array object, a bare array,
or a non-object atom (string, number, null, ...). -/
inductive JData where
  | obj (o : DataObj)
  | arr (xs : List Raw)
  | atom
deriving DecidableEq

/-- Slot extraction from a displays value: an array is mapped through
the defaulting normalization; a keyed object uses each key as the slot
id and normalizes the body.  This block is duplicated verbatim in the
initial_data and status cases of handleWebSocketMessage. -/
def displaysToSlots (now : Nat) : Option DispVal → List PSlot
  | some (.list xs) => xs.map (normalizeSlot now)
  | some (.keyed es) => es.map fun e => { normalizeSlot now e.2 with id := some e.1 }
  | none => []

/-- Slot extraction of the initial_data case: a slots array is taken
verbatim; otherwise a displays field is normalized; otherwise a bare
array is normalized; anything else yields no slots. -/
def extractInitial (now : Nat) : JData → List PSlot
  | .obj o =>
      match o.slots with
      | some xs => xs.map asSlot
      | none => displaysToSlots now o.displays
  | .arr xs => xs.map (normalizeSlot now)
  | .atom => []

/-- The initial_data case: setParkingSlots(slots) runs only when
slots.length > 0; otherwise the previous store is kept. -/
def applyInitialData (now : Nat) (store : List PSlot) (d : JData) : List PSlot :=
  let slots := extractInitial now d
  if slots.isEmpty then store else slots

/-- A partial slot record carried by bulk_update / single_update. -/
structure Delta where
  id : Option String
  state : Option SState
  lastUpdated : Option Nat
  zone : Option String
  floor : Option Int
  duration : Option Nat
deriving DecidableEq

/-- The spread merge
{...updatedSlots[index], ...update, lastUpdated: update.lastUpdated || Date.now()}:
a field present on the delta overrides, an absent one keeps the prior
value, and lastUpdated falls back to now when absent or 0 (falsy). -/
def applyDelta (now : Nat) (s : PSlot) (d : Delta) : PSlot :=
  { id := d.id <|> s.id,
    state := d.state <|> s.state,
    lastUpdated := some ((truthyN d.lastUpdated).getD now),
    zone := d.zone <|> s.zone,
    floor := d.floor <|> s.floor,
    duration := d.duration <|> s.duration }

/-- The bulk_update body for one delta: findIndex on slot.id ===
update.id and in-place replacement of that single entry; when no index
matches, the store is left as is. -/
def updateFirstMatch (now : Nat) (u : Delta) : List PSlot → List PSlot
  | [] => []
  | s :: rest =>
      if s.id = u.id then applyDelta now s u :: rest
      else s :: updateFirstMatch now u rest

/-- The bulk_update case: updates applied sequentially onto a copy of
the previous store. -/
def bulkUpdate (now : Nat) (store : List PSlot) (updates : List Delta) : List PSlot :=
  updates.foldl (fun acc u => updateFirstMatch now u acc) store

/-- The single_update case: prevSlots.map replacing every record whose
id matches the delta's id by the merged record. -/
def singleUpdate (now : Nat) (store : List PSlot) (u : Delta) : List PSlot :=
  store.map fun s => if s.id = u.id then applyDelta now s u else s

/-- The status case: the raw payload is surfaced (setBackendStatus and
the status history push) whenever data is a truthy object, and slot
data is read only from a displays field; the resulting store replaces
the previous one only when at least one slot was produced.  The Bool
component records whether the payload was surfaced. -/
def handleStatus (now : Nat) (store : List PSlot) (d : JData) : List PSlot × Bool :=
  match d with
  | .obj o =>
      let slots := displaysToSlots now o.displays
      (if slots.isEmpty then store else slots, true)
  | .arr _ => (store, true)
  | .atom => (store, false)

/-- maxReconnectAttempts = 5. -/
def maxReconnectAttempts : Nat := 5

/-- delay = Math.min(1000 * Math.pow(2, reconnectAttempts.current), 30000). -/
def reconnectDelay (attempt : Nat) : Nat := min (1000 * 2 ^ attempt) 30000

/-- The onclose retry decision: a retry with backoff delay is
scheduled exactly when event.code !== 1000 and reconnectAttempts.current
< maxReconnectAttempts. -/
def scheduleRetry (code attempt : Nat) : Option Nat :=
  if code ≠ 1000 ∧ attempt < maxReconnectAttempts then some (reconnectDelay attempt)
  else none

/-- Effect of one close event on the reconnect counter: incremented
exactly when a retry is scheduled. -/
def closeStep (code attempt : Nat) : Nat :=
  if code ≠ 1000 ∧ attempt < maxReconnectAttempts then attempt + 1 else attempt

/-- Socket lifecycle events that touch the reconnect counter:
onopen resets it to 0, onclose runs the retry decision. -/
inductive WsEvent where
  | opened
  | closed (code : Nat)
deriving DecidableEq

/-- One event's effect on the reconnect counter. -/
def stepEvent (attempt : Nat) : WsEvent → Nat
  | .opened => 0
  | .closed code => closeStep code attempt

/-- The reconnect counter after a sequence of socket events, starting
from its initial value useRef(0). -/
def runEvents (evs : List WsEvent) : Nat := evs.foldl stepEvent 0

/-- Connection status values of the dashboard. -/
inductive ConnStatus where
  | connecting
  | connected
  | disconnected
  | error
deriving DecidableEq

/-- Per-floor base transition probability of the drift simulator:
0.04 on floor 1, 0.01 on floor 3, 0.02 otherwise. -/
def floorRate (floor : Option Int) : ℚ :=
  if floor = some 1 then 4/100
  else if floor = some 3 then 1/100
  else 2/100

/-- changeProbability of one drift tick: the floor base, doubled when
state === 'occupied' and newDuration > 60, then times 1.5 when
state === 'free' and newDuration > 10 (newDuration is the incremented
duration (slot.duration || 0) + 1). -/
def changeProbability (s : PSlot) : ℚ :=
  let newDuration := (truthyN s.duration).getD 0 + 1
  let base := floorRate s.floor
  let afterOccupied :=
    if s.state = some SState.occupied ∧ newDuration > 60 then base * 2 else base
  if s.state = some SState.free ∧ newDuration > 10 then afterOccupied * (3/2)
  else afterOccupied

/-- One drift-simulator update of a single slot, with the uniform draw
Math.random() passed in: below the probability, the state is set to
'occupied' when it was 'free' and to 'free' otherwise, lastUpdated to
now and duration to 0; otherwise only duration is incremented. -/
def driftTick (now : Nat) (rand : ℚ) (s : PSlot) : PSlot :=
  let newDuration := (truthyN s.duration).getD 0 + 1
  if rand < changeProbability s then
    { s with
      state := some (if s.state = some SState.free then SState.occupied else SState.free),
      lastUpdated := some now,
      duration := some 0 }
  else { s with duration := some newDuration }

/-- The drift interval is installed by the effect only while the
connection status is not 'connected'. -/
def driftIntervalActive (status : ConnStatus) : Bool :=
  status ≠ ConnStatus.connected

/-- simulateRealisticParking: returns the store untouched when
connectionStatus === 'connected', otherwise maps every slot through a
drift tick, each with its own random draw. -/
def simulateRealisticParking (status : ConnStatus) (now : Nat) (rand : Nat → ℚ)
    (store : List PSlot) : List PSlot :=
  if status = ConnStatus.connected then store
  else store.mapIdx fun i s => driftTick now (rand i) s

/-- Count of not-occupied slots in the stats read interface:
slot.state === 'free' || slot.state === 'available'. -/
def freeCount (slots : List PSlot) : Nat :=
  (slots.filter fun s =>
    s.state == some SState.free || s.state == some SState.available).length

/-- Count of occupied slots in the stats read interface. -/
def occupiedCount (slots : List PSlot) : Nat :=
  (slots.filter fun s => s.state == some SState.occupied).length

/-! Concrete records used by counterexamples and witnesses. -/

/-- An occupied record with id A1, as produced by the spec's scenario
chain after a first snapshot. -/
def slotA1 : PSlot :=
  { id := some "A1", state := some SState.occupied, lastUpdated := some 10,
    zone := some "A", floor := some 1, duration := some 45 }

/-- A free record with a different id, used as a bystander. -/
def slotB2 : PSlot :=
  { id := some "B2", state := some SState.free, lastUpdated := some 10,
    zone := some "B", floor := some 2, duration := some 5 }

/-- The wire element of the scenario snapshot:
{id:"A1",state:"occupied",floor:1,zone:"A"}. -/
def rawA1 : Raw :=
  { id := some "A1", slot_id := none, state := some SState.occupied,
    status := none, lastUpdated := none, timestamp := none,
    zone := some "A", floor := some 1, duration := none }

/-- data = { slots: [rawA1] }. -/
def dataSlotsA1 : JData := JData.obj { slots := some [rawA1], displays := none }

/-- data = { slots: [] }: an empty full snapshot. -/
def dataEmptySlots : JData := JData.obj { slots := some [], displays := none }

/-- The scenario delta {id:"A1",state:"free"}. -/
def deltaFree : Delta :=
  { id := some "A1", state := some SState.free, lastUpdated := none,
    zone := none, floor := none, duration := none }

/-- A delta whose id matches nothing in the stores above. -/
def deltaMissing : Delta :=
  { id := some "ZZ", state := some SState.free, lastUpdated := none,
    zone := none, floor := none, duration := none }

/-- A delta carrying the falsy timestamp 0. -/
def deltaZeroTs : Delta :=
  { id := some "A1", state := some SState.free, lastUpdated := some 0,
    zone := none, floor := none, duration := none }

/-- A long-vacant 'free' slot on the neutral floor 2. -/
def freeSlotF2 : PSlot :=
  { id := some "F1", state := some SState.free, lastUpdated := some 0,
    zone := some "A", floor := some 2, duration := some 15 }

/-- The same slot with the synonymous wire state 'available'. -/
def availSlotF2 : PSlot := { freeSlotF2 with state := some SState.available }

/-! Helper lemmas shared by several claim proofs. -/

/-- Any counter value at most the ceiling stays at most the ceiling
under every socket event sequence. -/
theorem foldl_stepEvent_le (evs : List WsEvent) :
    ∀ a : Nat, a ≤ 5 → List.foldl stepEvent a evs ≤ 5 := by
  induction evs with
  | nil => intro a ha; simpa using ha
  | cons e tail ih =>
      intro a ha
      cases e with
      | opened => exact ih 0 (by omega)
      | closed code =>
          apply ih
          simp only [stepEvent, closeStep, maxReconnectAttempts]
          by_cases h : code ≠ 1000 ∧ a < 5
          · rw [if_pos h]
            omega
          · rw [if_neg h]
            exact ha

/-! Claim theorems. -/

/-- C6: the drift simulator never mutates the slot store while the
connection status is 'connected': in that state a simulation pass
returns the store unchanged, and the drift interval itself is only
installed while the status is not 'connected'. -/
theorem drift_noop_when_connected :
    ∀ (now : Nat) (rand : Nat → ℚ) (store : List PSlot),
      simulateRealisticParking ConnStatus.connected now rand store = store
        ∧ driftIntervalActive ConnStatus.connected = false := by
  intro now rand store
  exact ⟨by simp [simulateRealisticParking], rfl⟩

/-- C4: an abnormal close (code ≠ 1000) with the counter below the
ceiling 5 schedules a retry after min(1000 * 2 ^ attempt, 30000) ms,
which is 1, 2, 4, 8, 16 seconds for attempts 0 through 4; a clean
close (code 1000) or a counter at the ceiling schedules none. -/
theorem reconnect_backoff_policy :
    ∀ (code attempt : Nat),
      (code ≠ 1000 → attempt < 5 →
        scheduleRetry code attempt = some (min (1000 * 2 ^ attempt) 30000))
        ∧ [0, 1, 2, 3, 4].map reconnectDelay = [1000, 2000, 4000, 8000, 16000]
        ∧ (code = 1000 → scheduleRetry code attempt = none)
        ∧ scheduleRetry code 5 = none := by
  intro code attempt
  refine ⟨fun hc ha => ?_, by decide, fun hc => ?_, ?_⟩
  · simp [scheduleRetry, maxReconnectAttempts, hc, ha, reconnectDelay]
  · simp [scheduleRetry, hc]
  · simp [scheduleRetry, maxReconnectAttempts]

/-- Witness for C4: the abnormal close code 1006 at attempt 0
schedules a retry after exactly 1000 ms. -/
theorem reconnect_backoff_policy_inst : scheduleRetry 1006 0 = some 1000 := by
  have h := (reconnect_backoff_policy 1006 0).1 (by decide) (by decide)
  simpa using h

/-- C10: the reconnect counter starts at 0, a successful open resets
it to 0, a close increments it exactly when a retry is scheduled
(which requires the counter to be strictly below the ceiling), and in
every reachable state the counter is at most 5. -/
theorem attempt_counter_bounded :
    ∀ (evs : List WsEvent), runEvents evs ≤ 5
      ∧ runEvents [] = 0
      ∧ (∀ code attempt, closeStep code attempt ≠ attempt ↔
          (scheduleRetry code attempt).isSome)
      ∧ (∀ code attempt, (scheduleRetry code attempt).isSome →
          attempt < 5 ∧ closeStep code attempt = attempt + 1)
      ∧ (∀ (tail : List WsEvent) (attempt : Nat),
          List.foldl stepEvent attempt (WsEvent.opened :: tail) = runEvents tail) := by
  intro evs
  refine ⟨foldl_stepEvent_le evs 0 (by omega), rfl, ?_, ?_, fun tail attempt => rfl⟩
  · intro code attempt
    simp only [closeStep, scheduleRetry, maxReconnectAttempts]
    by_cases h : code ≠ 1000 ∧ attempt < 5
    · rw [if_pos h, if_pos h]
      simp
    · rw [if_neg h, if_neg h]
      simp
  · intro code attempt
    simp only [closeStep, scheduleRetry, maxReconnectAttempts]
    by_cases h : code ≠ 1000 ∧ attempt < 5
    · rw [if_pos h, if_pos h]
      exact fun _ => ⟨h.2, rfl⟩
    · rw [if_neg h, if_neg h]
      simp

/-- Witness for C10: six consecutive abnormal closes keep the counter
at the ceiling 5, and the first abnormal close increments 0 to 1. -/
theorem attempt_counter_bounded_inst :
    runEvents [WsEvent.closed 1006, WsEvent.closed 1006, WsEvent.closed 1006,
        WsEvent.closed 1006, WsEvent.closed 1006, WsEvent.closed 1006] ≤ 5
      ∧ closeStep 1006 0 = 0 + 1 :=
  ⟨(attempt_counter_bounded _).1,
   ((attempt_counter_bounded []).2.2.2.1 1006 0 (by decide)).2⟩

/-- When the matched record's id equals the delta's id, the merge
leaves the id unchanged. -/
theorem applyDelta_id (now : Nat) (s : PSlot) (u : Delta) (h : s.id = u.id) :
    (applyDelta now s u).id = s.id := by
  cases hu : u.id with
  | none => simp [applyDelta, hu, h]
  | some x => simp [applyDelta, hu, h]

/-- A bulk-update pass over one delta preserves the id sequence of the
store. -/
theorem updateFirstMatch_ids (now : Nat) (u : Delta) :
    ∀ store : List PSlot,
      (updateFirstMatch now u store).map PSlot.id = store.map PSlot.id := by
  intro store
  induction store with
  | nil => rfl
  | cons s rest ih =>
      by_cases h : s.id = u.id
      · simp [updateFirstMatch, h, applyDelta_id now s u h]
      · simp [updateFirstMatch, h, ih]

/-- A whole bulk update preserves the id sequence of the store. -/
theorem bulkUpdate_ids (now : Nat) (us : List Delta) :
    ∀ store : List PSlot,
      (bulkUpdate now store us).map PSlot.id = store.map PSlot.id := by
  induction us with
  | nil => intro store; rfl
  | cons u rest ih =>
      intro store
      have hstep : bulkUpdate now store (u :: rest)
          = bulkUpdate now (updateFirstMatch now u store) rest := rfl
      rw [hstep, ih, updateFirstMatch_ids]

/-- A delta matching no record leaves a bulk-update pass inert. -/
theorem updateFirstMatch_nomatch (now : Nat) (u : Delta) :
    ∀ store : List PSlot, (∀ s ∈ store, s.id ≠ u.id) →
      updateFirstMatch now u store = store := by
  intro store
  induction store with
  | nil => intro _; rfl
  | cons s rest ih =>
      intro hall
      have hs : s.id ≠ u.id := hall s (by simp)
      simp [updateFirstMatch, hs]
      exact ih fun t ht => hall t (by simp [ht])

/-- The single-update map is the identity on every stretch of records
whose ids differ from the delta's id. -/
theorem singleUpdate_nomatch (now : Nat) (u : Delta) :
    ∀ store : List PSlot, (∀ s ∈ store, s.id ≠ u.id) →
      singleUpdate now store u = store := by
  intro store
  induction store with
  | nil => intro _; rfl
  | cons s rest ih =>
      intro hall
      have hs : s.id ≠ u.id := hall s (by simp)
      have htail := ih fun t ht => hall t (by simp [ht])
      simpa [singleUpdate, hs] using htail

/-- C2: a delta whose id matches no existing record is discarded by
both bulk_update and single_update, leaving the store unchanged; and
no delta batch ever creates a record — the length and the id sequence
of the store are preserved. -/
theorem delta_no_creation :
    ∀ (now : Nat) (store : List PSlot) (us : List Delta) (u : Delta),
      (bulkUpdate now store us).length = store.length
        ∧ (bulkUpdate now store us).map PSlot.id = store.map PSlot.id
        ∧ (singleUpdate now store u).length = store.length
        ∧ ((∀ s ∈ store, s.id ≠ u.id) →
            bulkUpdate now store [u] = store ∧ singleUpdate now store u = store) := by
  intro now store us u
  refine ⟨?_, bulkUpdate_ids now us store, by simp [singleUpdate], fun h => ⟨?_, ?_⟩⟩
  · have hids := bulkUpdate_ids now us store
    have := congrArg List.length hids
    simpa using this
  · have : bulkUpdate now store [u] = updateFirstMatch now u store := rfl
    rw [this, updateFirstMatch_nomatch now u store h]
  · exact singleUpdate_nomatch now u store h

/-- Witness for C2: the delta with the unknown id ZZ leaves the
one-record store with id A1 untouched under both update paths. -/
theorem delta_no_creation_inst :
    bulkUpdate 5 [slotA1] [deltaMissing] = [slotA1]
      ∧ singleUpdate 5 [slotA1] deltaMissing = [slotA1] :=
  (delta_no_creation 5 [slotA1] [deltaMissing] deltaMissing).2.2.2 (by decide)

/-- C1 counterexample: the initial_data envelope with data
{ slots: [] } yields the empty snapshot, yet applying it to a
non-empty store keeps the old record instead of purging it — the
guard slots.length > 0 skips empty snapshots. -/
theorem initialData_empty_snapshot_kept :
    extractInitial 7 dataEmptySlots = []
      ∧ applyInitialData 7 [slotA1] dataEmptySlots = [slotA1] := by
  exact ⟨rfl, rfl⟩

/-- C1 amended: a full snapshot replaces the store — the resulting
store's id sequence is exactly the snapshot's, and every old id absent
from the snapshot is purged — whenever the snapshot yields at least
one record; a snapshot yielding no records leaves the store
unchanged. -/
theorem initialData_snapshot_replaces_store :
    ∀ (now : Nat) (store : List PSlot) (d : JData),
      (extractInitial now d ≠ [] →
        (applyInitialData now store d).map PSlot.id
            = (extractInitial now d).map PSlot.id
          ∧ ∀ t ∈ store, (∀ r ∈ extractInitial now d, r.id ≠ t.id) →
              ∀ r ∈ applyInitialData now store d, r.id ≠ t.id)
        ∧ (extractInitial now d = [] → applyInitialData now store d = store) := by
  intro now store d
  constructor
  · intro hne
    have happ : applyInitialData now store d = extractInitial now d := by
      simp only [applyInitialData]
      rw [if_neg]
      simp [List.isEmpty_iff, hne]
    refine ⟨by rw [happ], ?_⟩
    intro t _ hpurge r hr
    exact hpurge r (happ ▸ hr)
  · intro he
    simp [applyInitialData, he]

/-- Witness for C1: the non-empty scenario snapshot applied over the
store holding only B2 yields exactly the snapshot id A1. -/
theorem initialData_snapshot_replaces_store_inst :
    (applyInitialData 7 [slotB2] dataSlotsA1).map PSlot.id
      = (extractInitial 7 dataSlotsA1).map PSlot.id :=
  ((initialData_snapshot_replaces_store 7 [slotB2] dataSlotsA1).1 (by decide)).1

/-- C7 counterexample: the scenario snapshot
{type:"initial_data", data:{slots:[{id:"A1",state:"occupied",floor:1,zone:"A"}]}}
stores its element verbatim — duration stays absent instead of
defaulting to 0 and lastUpdated stays absent instead of defaulting to
the current time 99. -/
theorem slots_branch_no_defaulting :
    (applyInitialData 99 [] dataSlotsA1).map PSlot.duration = [none]
      ∧ (applyInitialData 99 [] dataSlotsA1).map PSlot.lastUpdated = [none] := by
  decide

/-- C7 amended: when data carries a slots list, each element is stored
verbatim with no field defaulting (defaulting applies only to the
displays and bare-list branches); the scenario snapshot produces
exactly one record with id A1, state occupied, zone A and floor 1,
whose duration and lastUpdated are absent. -/
theorem slots_branch_verbatim :
    ∀ (now : Nat) (o : DataObj) (xs : List Raw) (r : Raw),
      (o.slots = some xs → extractInitial now (JData.obj o) = xs.map asSlot)
        ∧ ((asSlot r).id = r.id ∧ (asSlot r).state = r.state
            ∧ (asSlot r).zone = r.zone ∧ (asSlot r).floor = r.floor
            ∧ (asSlot r).duration = r.duration
            ∧ (asSlot r).lastUpdated = r.lastUpdated)
        ∧ applyInitialData now [] dataSlotsA1
            = [{ id := some "A1", state := some SState.occupied,
                 lastUpdated := none, zone := some "A", floor := some 1,
                 duration := none }] := by
  intro now o xs r
  refine ⟨fun h => ?_, ⟨rfl, rfl, rfl, rfl, rfl, rfl⟩, rfl⟩
  simp [extractInitial, h]

/-- Witness for C7: the scenario data object satisfies the slots
hypothesis, and extraction is the verbatim image of its one element. -/
theorem slots_branch_verbatim_inst :
    extractInitial 99 (JData.obj { slots := some [rawA1], displays := none })
      = [rawA1].map asSlot :=
  (slots_branch_verbatim 99 { slots := some [rawA1], displays := none }
    [rawA1] rawA1).1 rfl

/-- A bulk pass hits the first record whose id matches and leaves the
prefix of non-matching records intact. -/
theorem updateFirstMatch_append (now : Nat) (u : Delta) :
    ∀ (pre : List PSlot), (∀ t ∈ pre, t.id ≠ u.id) →
      ∀ (s : PSlot) (post : List PSlot), s.id = u.id →
        updateFirstMatch now u (pre ++ s :: post)
          = pre ++ applyDelta now s u :: post := by
  intro pre
  induction pre with
  | nil =>
      intro _ s post hs
      simp [updateFirstMatch, hs]
  | cons p ps ih =>
      intro hall s post hs
      have hp : p.id ≠ u.id := hall p (by simp)
      have htail := ih (fun t ht => hall t (by simp [ht])) s post hs
      simp [updateFirstMatch, hp, htail]

/-- The single-update map rewrites the matched record and nothing
else when every other id differs from the delta's. -/
theorem singleUpdate_append (now : Nat) (u : Delta)
    (pre post : List PSlot) (s : PSlot)
    (hpre : ∀ t ∈ pre, t.id ≠ u.id) (hpost : ∀ t ∈ post, t.id ≠ u.id)
    (hs : s.id = u.id) :
    singleUpdate now (pre ++ s :: post) u = pre ++ applyDelta now s u :: post := by
  have h1 : singleUpdate now pre u = pre := singleUpdate_nomatch now u pre hpre
  have h2 : singleUpdate now post u = post := singleUpdate_nomatch now u post hpost
  simp only [singleUpdate] at h1 h2 ⊢
  rw [List.map_append, List.map_cons, h1, h2, if_pos hs]

/-- C3 counterexample: the delta {id:"A1",state:"free",lastUpdated:0}
carries a present lastUpdated, yet the merged record's lastUpdated
becomes the current time 5 — update.lastUpdated || Date.now() treats
the timestamp 0 as falsy. -/
theorem delta_lastUpdated_zero_overridden :
    deltaZeroTs.lastUpdated = some 0
      ∧ (singleUpdate 5 [slotA1] deltaZeroTs).map PSlot.lastUpdated = [some 5]
      ∧ (bulkUpdate 5 [slotA1] [deltaZeroTs]).map PSlot.lastUpdated = [some 5] := by
  decide

/-- C3 amended: a delta applied to the unique existing record matching
its id overwrites exactly the fields present on the delta, keeps every
absent field at its prior value, sets lastUpdated to the delta's value
when present and non-zero and to the current time otherwise, and
leaves every other record of the store unchanged; bulk_update and
single_update agree on all of this. -/
theorem delta_merge_frame :
    ∀ (now : Nat) (pre post : List PSlot) (s : PSlot) (u : Delta),
      (∀ t ∈ pre, t.id ≠ u.id) → (∀ t ∈ post, t.id ≠ u.id) → s.id = u.id →
      bulkUpdate now (pre ++ s :: post) [u] = pre ++ applyDelta now s u :: post
        ∧ singleUpdate now (pre ++ s :: post) u = pre ++ applyDelta now s u :: post
        ∧ (u.state = none → (applyDelta now s u).state = s.state)
        ∧ (∀ v, u.state = some v → (applyDelta now s u).state = some v)
        ∧ (u.zone = none → (applyDelta now s u).zone = s.zone)
        ∧ (∀ v, u.zone = some v → (applyDelta now s u).zone = some v)
        ∧ (u.floor = none → (applyDelta now s u).floor = s.floor)
        ∧ (∀ v, u.floor = some v → (applyDelta now s u).floor = some v)
        ∧ (u.duration = none → (applyDelta now s u).duration = s.duration)
        ∧ (∀ v, u.duration = some v → (applyDelta now s u).duration = some v)
        ∧ (∀ t, u.lastUpdated = some t → t ≠ 0 →
            (applyDelta now s u).lastUpdated = some t)
        ∧ ((u.lastUpdated = none ∨ u.lastUpdated = some 0) →
            (applyDelta now s u).lastUpdated = some now) := by
  intro now pre post s u hpre hpost hs
  refine ⟨updateFirstMatch_append now u pre hpre s post hs,
    singleUpdate_append now u pre post s hpre hpost hs,
    fun h => by simp [applyDelta, h],
    fun v h => by simp [applyDelta, h],
    fun h => by simp [applyDelta, h],
    fun v h => by simp [applyDelta, h],
    fun h => by simp [applyDelta, h],
    fun v h => by simp [applyDelta, h],
    fun h => by simp [applyDelta, h],
    fun v h => by simp [applyDelta, h],
    fun t h ht => by simp [applyDelta, truthyN, h, ht],
    fun h => ?_⟩
  cases h with
  | inl h => simp [applyDelta, truthyN, h]
  | inr h => simp [applyDelta, truthyN, h]

/-- Witness for C3: the scenario delta {id:"A1",state:"free"} applied
after the snapshot updates A1 in place next to the bystander B2. -/
theorem delta_merge_frame_inst :
    singleUpdate 5 [slotB2, slotA1] deltaFree
      = [slotB2, applyDelta 5 slotA1 deltaFree] :=
  (delta_merge_frame 5 [slotB2] [] slotA1 deltaFree
    (by decide) (by decide) (by decide)).2.1

/-- C5 counterexample: on a below-probability draw, the vacant
'available' slot does not flip to occupied — the code's
state === 'free' ? 'occupied' : 'free' sends it to 'free', which is
still vacant. -/
theorem drift_flip_available_not_occupied :
    (0 : ℚ) < changeProbability availSlotF2
      ∧ (driftTick 7 (0 : ℚ) availSlotF2).state = some SState.free
      ∧ (driftTick 7 (0 : ℚ) availSlotF2).state ≠ some SState.occupied := by
  have hp : changeProbability availSlotF2 = 2 / 100 := by
    simp [changeProbability, floorRate, availSlotF2, freeSlotF2, truthyN]
  have h0 : (0 : ℚ) < changeProbability availSlotF2 := by
    rw [hp]; norm_num
  have hstate : (driftTick 7 (0 : ℚ) availSlotF2).state = some SState.free := by
    simp only [driftTick]
    rw [if_pos h0]
    simp [availSlotF2, freeSlotF2]
  exact ⟨h0, hstate, by rw [hstate]; simp⟩

/-- C5 amended: on each drift tick of one slot, a draw below the
computed probability sets the state to 'occupied' when it was 'free'
and to 'free' in every other case (so an 'available' slot lands on
'free'), resets duration to 0 and stamps lastUpdated with the current
time, all in the same update; a draw at or above the probability
changes nothing but the duration, which becomes the incremented value
(slot.duration || 0) + 1; and a state change never happens without the
duration reset. -/
theorem drift_tick_spec :
    ∀ (now : Nat) (rand : ℚ) (s : PSlot),
      (rand < changeProbability s →
        (driftTick now rand s).duration = some 0
          ∧ (driftTick now rand s).lastUpdated = some now
          ∧ (s.state = some SState.free →
              (driftTick now rand s).state = some SState.occupied)
          ∧ (s.state ≠ some SState.free →
              (driftTick now rand s).state = some SState.free))
        ∧ (¬ rand < changeProbability s →
            (driftTick now rand s).duration = some ((truthyN s.duration).getD 0 + 1)
              ∧ (driftTick now rand s).state = s.state
              ∧ (driftTick now rand s).lastUpdated = s.lastUpdated
              ∧ (driftTick now rand s).id = s.id
              ∧ (driftTick now rand s).zone = s.zone
              ∧ (driftTick now rand s).floor = s.floor)
        ∧ ((driftTick now rand s).state ≠ s.state →
            (driftTick now rand s).duration = some 0) := by
  intro now rand s
  by_cases h : rand < changeProbability s
  · refine ⟨fun _ => ?_, fun hc => absurd h hc, fun _ => ?_⟩
    · refine ⟨?_, ?_, fun hf => ?_, fun hf => ?_⟩
      · simp only [driftTick]; rw [if_pos h]
      · simp only [driftTick]; rw [if_pos h]
      · simp only [driftTick]; rw [if_pos h]; simp [hf]
      · simp only [driftTick]; rw [if_pos h]; simp [hf]
    · simp only [driftTick]; rw [if_pos h]
  · refine ⟨fun hc => absurd hc h, fun _ => ?_, fun hst => ?_⟩
    · simp only [driftTick]; rw [if_neg h]
      exact ⟨rfl, rfl, rfl, rfl, rfl, rfl⟩
    · exfalso
      apply hst
      simp only [driftTick]
      rw [if_neg h]

/-- Witness for C5: a zero draw against the long-vacant free slot on
floor 2 flips it to occupied with duration reset to 0 in the same
update. -/
theorem drift_tick_spec_inst :
    (driftTick 7 (0 : ℚ) freeSlotF2).duration = some 0
      ∧ (driftTick 7 (0 : ℚ) freeSlotF2).state = some SState.occupied := by
  have hlt : (0 : ℚ) < changeProbability freeSlotF2 := by
    have hp : changeProbability freeSlotF2 = 2 / 100 * (3 / 2) := by
      simp [changeProbability, floorRate, freeSlotF2, truthyN]
    rw [hp]; norm_num
  have h := (drift_tick_spec 7 0 freeSlotF2).1 hlt
  exact ⟨h.1, h.2.2.1 rfl⟩

/-- C8 counterexample: the drift simulator does not treat 'available'
like 'free'.  At duration 15 on floor 2 the 'free' slot receives the
long-vacant scaling (probability 0.03) while its 'available' twin does
not (0.02), and on a below-probability draw the 'free' slot flips to
occupied while the 'available' one is set to 'free'. -/
theorem available_free_drift_divergence :
    changeProbability freeSlotF2 = 3 / 100
      ∧ changeProbability availSlotF2 = 2 / 100
      ∧ (driftTick 1 (0 : ℚ) freeSlotF2).state = some SState.occupied
      ∧ (driftTick 1 (0 : ℚ) availSlotF2).state = some SState.free := by
  have hfree : changeProbability freeSlotF2 = 3 / 100 := by
    have h : changeProbability freeSlotF2 = 2 / 100 * (3 / 2) := by
      simp [changeProbability, floorRate, freeSlotF2, truthyN]
    rw [h]; norm_num
  have havail : changeProbability availSlotF2 = 2 / 100 := by
    simp [changeProbability, floorRate, availSlotF2, freeSlotF2, truthyN]
  refine ⟨hfree, havail, ?_, ?_⟩
  · simp only [driftTick]
    rw [if_pos (by rw [hfree]; norm_num)]
    simp [freeSlotF2]
  · simp only [driftTick]
    rw [if_pos (by rw [havail]; norm_num)]
    simp [availSlotF2, freeSlotF2]

/-- C8 amended: the read/statistics interface does treat 'available'
and 'free' identically — both are counted as not occupied — but the
drift simulator does not: an 'available' slot never receives the
duration-based probability scaling (its probability is the bare floor
rate) and a below-probability draw sets it to 'free' rather than to
'occupied'. -/
theorem available_free_partial_synonymy :
    ∀ (slots : List PSlot) (s : PSlot) (now : Nat) (rand : ℚ),
      ((s.state = some SState.free ∨ s.state = some SState.available) →
        freeCount (s :: slots) = freeCount slots + 1
          ∧ occupiedCount (s :: slots) = occupiedCount slots)
        ∧ (s.state = some SState.available →
            changeProbability s = floorRate s.floor
              ∧ (rand < changeProbability s →
                  (driftTick now rand s).state = some SState.free)) := by
  intro slots s now rand
  constructor
  · intro h
    have hocc : s.state ≠ some SState.occupied := by
      cases h with
      | inl h => rw [h]; simp
      | inr h => rw [h]; simp
    constructor
    · cases h with
      | inl h => simp [freeCount, h]
      | inr h => simp [freeCount, h]
    · simp only [occupiedCount, List.filter]
      have : (s.state == some SState.occupied) = false := by
        simpa using hocc
      rw [this]
  · intro h
    constructor
    · simp [changeProbability, h]
    · intro hlt
      simp only [driftTick]
      rw [if_pos hlt]
      simp [h]

/-- Witness for C8: the 'available' twin counts as free in the stats
and its drift probability is the bare floor rate. -/
theorem available_free_partial_synonymy_inst :
    freeCount [availSlotF2] = freeCount [] + 1
      ∧ changeProbability availSlotF2 = floorRate availSlotF2.floor := by
  have h := available_free_partial_synonymy [] availSlotF2 3 0
  exact ⟨(h.1 (Or.inr rfl)).1, (h.2 rfl).1⟩

/-- C9 counterexample: a status envelope whose data is
{ slots: [rawA1] } carries slot data that the generic extraction rules
would find, yet the status handler changes nothing — it reads a
displays field only. -/
theorem status_ignores_slots_field :
    extractInitial 7 dataSlotsA1 ≠ []
      ∧ (handleStatus 7 [slotB2] dataSlotsA1).1 = [slotB2]
      ∧ (handleStatus 7 [slotB2] dataSlotsA1).2 = true := by
  decide

/-- C9 amended: for a status envelope whose data is an object, the raw
payload is surfaced to the operational collaborator regardless of slot
content, and slot data is extracted only from a displays field — a
slots field is ignored — applied as a full snapshot exactly when it
yields at least one record; non-object data is neither surfaced nor
applied. -/
theorem status_displays_only :
    ∀ (now : Nat) (store : List PSlot) (o : DataObj) (xs : List Raw),
      (handleStatus now store (JData.obj o)).2 = true
        ∧ (handleStatus now store
              (JData.obj { slots := some xs, displays := o.displays })).1
            = (handleStatus now store
                (JData.obj { slots := none, displays := o.displays })).1
        ∧ (displaysToSlots now o.displays ≠ [] →
            (handleStatus now store (JData.obj o)).1
              = displaysToSlots now o.displays)
        ∧ (o.displays = none → (handleStatus now store (JData.obj o)).1 = store)
        ∧ handleStatus now store JData.atom = (store, false) := by
  intro now store o xs
  refine ⟨rfl, rfl, fun hne => ?_, fun hnone => ?_, rfl⟩
  · simp only [handleStatus]
    rw [if_neg]
    simp [List.isEmpty_iff, hne]
  · simp [handleStatus, hnone, displaysToSlots]

/-- Witness for C9: a status payload whose displays field lists the
scenario record replaces the store with its normalization. -/
theorem status_displays_only_inst :
    (handleStatus 7 [slotB2]
        (JData.obj { slots := none, displays := some (DispVal.list [rawA1]) })).1
      = displaysToSlots 7 (some (DispVal.list [rawA1])) :=
  ((status_displays_only 7 [slotB2]
      { slots := none, displays := some (DispVal.list [rawA1]) } []).2.2.1)
    (by decide)
